import Mathlib

/-!
Shallow embedding of `helper.py` from the IntradayAnalysis repository.

The file models the two data classes of the repository:

* `DatePicker.__post_init__` (count clamping and the business-day
  selection loop), and
* `Intraday` (`calculate_measures`, `__get_timezone`, the `prices` /
  `volumes` / `label` properties and `plot`).

Modelling choices:

* Calendar dates are proleptic-Gregorian ordinals (`ℤ`), exactly Python's
  `date.toordinal()`; `date(1,1,1)` has ordinal 1 and weekday Monday = 0,
  so `weekday n = (n + 6) % 7`.
* Instants and wall-clock datetimes are minutes (`ℤ`): a wall-clock
  datetime on ordinal `d` at `h:m` is `d * 1440 + h * 60 + m` minutes.
  A pytz timezone is modelled as a fixed offset in minutes east of UTC
  (given by the environment); attaching `tzinfo=tz` to a wall time `w`
  denotes the UTC instant `w - offset`, and `tz_convert` back adds the
  offset.
* The vendor services (`rd.get_data` for timezone/name, and
  `historical_pricing.summaries`) are an `Env` of functions; an
  exception raised by a call is an `Except.error`, an empty dataframe is
  `none` / the empty list.
* Prices and volumes are `ℚ`; a pandas NaN cell is an `Option` that is
  `none`, so `dropna` keeps the rows where every cell is `some`.
* Side effects are returned explicitly: `calculate_measures` yields the
  new object state, the list of request windows sent to the pricing
  service, and the list of printed messages.
-/

namespace IntradayAnalysis

/-! ## Calendar arithmetic shared by both classes -/

/-- Python's `date.weekday()` on an ordinal day number: Monday is `0`,
Sunday is `6` (ordinal 1 is a Monday). -/
def weekday (n : ℤ) : ℤ := (n + 6) % 7

/-! ## DatePicker -/

/-- Line 47 of `helper.py`:
`self.cnt = 5 if self.cnt < 1 or self.cnt > 10 else self.cnt`. -/
def clampCnt (cnt : ℤ) : ℤ := if cnt < 1 ∨ cnt > 10 then 5 else cnt

/-- The inner `while True` loop of `DatePicker.__post_init__` (lines
53–57): starting from offset `delta`, increment until `today - delta`
falls on a weekday. The loop always exits within three iterations (a
weekend is at most two consecutive days), so a fuel of `7` never runs
out; `skipWeekends` is always called with fuel `7`. -/
def skipWeekends (today : ℤ) (delta : ℕ) : ℕ → ℕ
  | 0 => delta
  | fuel + 1 =>
    if weekday (today - delta) < 5 then delta
    else skipWeekends today (delta + 1) fuel

/-- The outer `for i in range(self.cnt)` loop of
`DatePicker.__post_init__` (lines 51–60): pick the next business day at
or after offset `delta`, record it, and continue from the following
offset. Returns the ordinals of the selected dates in the order they are
appended to `self._dates`. -/
def pickDatesAux (today : ℤ) (delta : ℕ) : ℕ → List ℤ
  | 0 => []
  | n + 1 =>
    let d := skipWeekends today delta 7
    (today - d) :: pickDatesAux today (d + 1) n

/-- The dates preset by `DatePicker.__post_init__` for a requested
count `cnt`: the loop starts at `delta = 1` and runs `clampCnt cnt`
times. -/
def datePickerDates (today : ℤ) (cnt : ℤ) : List ℤ :=
  pickDatesAux today 1 (clampCnt cnt).toNat

/-! ## Intraday: data model -/

/-- Time-of-day (the value of `index.time` on a minute bar), used both
for the `time_range` picker values and for the row index of the result
tables. -/
structure TimeOfDay where
  hour : ℤ
  minute : ℤ
deriving DecidableEq, Repr, Inhabited

/-- Wall-clock minutes of ordinal date `d` at time-of-day `t`; the value
of `datetime(d.year, d.month, d.day, t.hour, t.minute, 0)` in the
minutes model. -/
def localWallMinutes (d : ℤ) (t : TimeOfDay) : ℤ :=
  d * 1440 + t.hour * 60 + t.minute

/-- Time-of-day of a minutes-valued timestamp (`index.time`). -/
def minutesToTime (m : ℤ) : TimeOfDay :=
  ⟨(m % 1440) / 60, m % 60⟩

/-- Calendar ordinal of a minutes-valued timestamp (`index.max().date()`
takes the date part of a timestamp). -/
def minutesToDate (m : ℤ) : ℤ := m / 1440

/-- One row of the dataframe returned by the pricing service: a naive
UTC timestamp (minutes) with the `TRDPRC_1` and `ACVOL_UNS` cells, each
possibly NaN. -/
structure RawBar where
  ts : ℤ
  price? : Option ℚ
  volume? : Option ℚ
deriving DecidableEq, Repr

/-- A row that survived `dropna()`: both cells present. -/
structure Bar where
  ts : ℤ
  price : ℚ
  volume : ℚ
deriving DecidableEq, Repr

/-- Line 184 of `helper.py`: `response.data.df.dropna()` keeps the rows
in which neither field is NaN. -/
def dropna (raw : List RawBar) : List Bar :=
  raw.filterMap fun b =>
    match b.price?, b.volume? with
    | some p, some v => some ⟨b.ts, p, v⟩
    | _, _ => none

/-- Lines 198–201 of `helper.py`: the `measure` switch. `df[price][0]`
is the first entry of the (already `dropna`-ed) price column, and the
right-hand sides are evaluated on the raw column before assignment. -/
def applyMeasure (measure : Option String) (ps : List ℚ) : List ℚ :=
  if measure = some "net" then
    ps.map fun p => p - ps.headI
  else if measure = some "pct" then
    ps.map fun p => (p - ps.headI) / ps.headI
  else
    ps

/-- The two single-column tables appended for one successfully processed
date (lines 204–213): the shared column label `df.index.max().date()`,
and the price/volume rows indexed by `index.time`. -/
structure DayResult where
  dateLabel : ℤ
  priceRows : List (TimeOfDay × ℚ)
  volumeRows : List (TimeOfDay × ℚ)
deriving DecidableEq, Repr

/-- Lines 186–213 of `helper.py` for a nonempty `dropna`-ed dataframe:
localize the UTC index and convert it to the trading timezone (adding
the offset), apply the measure to the price column (`pd.to_numeric` is
the identity here, prices being numeric already), split into the price
and volume tables, label both columns with the date of the maximal index
entry, and re-index both by time-of-day. -/
def processDay (offset : ℤ) (measure : Option String) (bars : List Bar) : DayResult :=
  let localBars := bars.map fun b => { b with ts := b.ts + offset }
  let ps := applyMeasure measure (localBars.map Bar.price)
  let times := localBars.map fun b => minutesToTime b.ts
  { dateLabel := minutesToDate (((localBars.map Bar.ts).max?).getD 0)
    priceRows := times.zip ps
    volumeRows := localBars.map fun b => (minutesToTime b.ts, b.volume) }

/-- A wide-format pandas dataframe: a row index and labelled columns,
each column carrying one value per index entry. -/
structure Frame where
  index : List TimeOfDay
  cols : List (ℤ × List ℚ)
deriving DecidableEq, Repr

/-- Value of a single-day column at row label `t` (pandas index
alignment; the per-day index entries are pairwise distinct in use). -/
def colLookup (rows : List (TimeOfDay × ℚ)) (t : TimeOfDay) : Option ℚ :=
  (rows.find? fun r => r.fst = t).map Prod.snd

/-- Lines 221–222 of `helper.py`:
`pd.concat(axis=1, sort=False).dropna()`. The outer join takes the
union of the per-day indices in first-seen order; `dropna()` then keeps
the rows at which every column has a value. -/
def concatDropna (cols : List (ℤ × List (TimeOfDay × ℚ))) : Frame :=
  let unionIdx := (cols.flatMap fun c => c.snd.map Prod.fst).dedup
  let keptIdx := unionIdx.filter fun t => cols.all fun c => (colLookup c.snd t).isSome
  { index := keptIdx
    cols := cols.map fun c => (c.fst, keptIdx.map fun t => (colLookup c.snd t).getD 0) }

/-- The mutable fields of an `Intraday` instance. All four are declared
`init=False` and unassigned at construction; `none` stands both for the
attribute being absent and for Python `None` (the `prices` / `volumes`
properties render both as `None`). -/
structure State where
  tz : Option String := none
  label : Option String := none
  prices : Option Frame := none
  volumes : Option Frame := none
deriving DecidableEq, Repr

/-- A freshly constructed `Intraday()`: no attribute assigned yet. -/
def initState : State := {}

/-- The vendor services behind `rd.get_data` and
`historical_pricing.summaries`, plus the pytz timezone table. An
`Except.error` models a raised exception; `none` models an empty
dataframe. `summaries` takes the RIC and the UTC start/end minutes of
the request window. `tzOffset` gives a timezone's fixed offset in
minutes east of UTC. -/
structure Env where
  masOperatingTZ : String → Except String (Option String)
  cfName : String → Except String (Option String)
  summaries : String → ℤ → ℤ → Except String (List RawBar)
  tzOffset : String → ℤ

/-- Message printed in the `finally` block of `__get_timezone` when no
timezone was obtained (line 280). -/
def failTzMsg (ric : String) : String :=
  s!"Failed to retrieve timezone information for: {ric}"

/-- Lines 260–281 of `helper.py`, `Intraday.__get_timezone`: fetch the
operating timezone and the display name; on a nonempty timezone frame
set `self._tz`, then `self._label`, and report success. An exception in
either fetch leaves the state unchanged; an empty name frame makes the
`nm.iat[0,1]` lookup raise after `self._tz` was already assigned, so
`_tz` is updated but success is `False`. Returns the updated state, the
success flag, and the printed messages. -/
def get_timezone (env : Env) (s : State) (ric : String) :
    State × Bool × List String :=
  match env.masOperatingTZ ric with
  | .error e => (s, false, [s!"An exception occurred: {e}", failTzMsg ric])
  | .ok tzDf =>
    match env.cfName ric with
    | .error e => (s, false, [s!"An exception occurred: {e}", failTzMsg ric])
    | .ok nmDf =>
      match tzDf with
      | none => (s, false, [failTzMsg ric])
      | some tzv =>
        match nmDf with
        | none =>
          ({ s with tz := some tzv }, false,
            [s!"An exception occurred: index out of bounds", failTzMsg ric])
        | some nmv =>
          ({ s with tz := some tzv, label := some s!"{nmv} (Timezone: {tzv})" },
            true, [])

/-- Lines 169–176 of `helper.py`: the UTC request window for one date —
the local trading start/end wall times built from the date and the time
range, interpreted in the trading timezone and converted to UTC by
subtracting the timezone offset. -/
def requestWindow (offset : ℤ) (t0 t1 : TimeOfDay) (date : ℤ) : ℤ × ℤ :=
  (localWallMinutes date t0 - offset, localWallMinutes date t1 - offset)

/-- Message printed when the request for one date raises (line 217). -/
def issueMsg (ric : String) (startUtc endUtc : ℤ) (e : String) : String :=
  s!"Issue retrieving data for RIC: {ric} for the range: {startUtc}:{endUtc}.  Ignoring {e}"

/-- Message printed when a request returns an empty frame (line 215). -/
def noDataMsg (ric : String) (startUtc endUtc : ℤ) : String :=
  s!"No data returned for RIC: {ric} for the range: {startUtc}:{endUtc}. Ignoring."

/-- The body of the `for date in dates` loop for one date (lines
166–217): send the request for the date's UTC window and either process
the returned data (when the `dropna`-ed frame is nonempty) or print and
skip. Returns the request window that was sent, the printed messages,
and the optional per-day result. -/
def runDate (env : Env) (ric : String) (offset : ℤ) (t0 t1 : TimeOfDay)
    (measure : Option String) (date : ℤ) :
    (ℤ × ℤ) × List String × Option DayResult :=
  let w := requestWindow offset t0 t1 date
  match env.summaries ric w.1 w.2 with
  | .error e => (w, [issueMsg ric w.1 w.2 e], none)
  | .ok raw =>
    let bars := dropna raw
    if bars.isEmpty then
      (w, [noDataMsg ric w.1 w.2], none)
    else
      (w, [], some (processDay offset measure bars))

/-- The outcome of one date of the loop: the per-day tables when the
request succeeded with nonempty data, `none` when the date was skipped
(request raised or returned no rows). -/
def dayOutcome (env : Env) (ric : String) (offset : ℤ) (t0 t1 : TimeOfDay)
    (measure : Option String) (date : ℤ) : Option DayResult :=
  (runDate env ric offset t0 t1 measure date).2.2

/-- The `for date in dates` loop (lines 165–217): run each date in
order, collecting the request windows, the printed messages, and the
per-day tables that were appended to the `prices` / `volumes` lists. -/
def runDates (env : Env) (ric : String) (offset : ℤ) (t0 t1 : TimeOfDay)
    (measure : Option String) :
    List ℤ → List (ℤ × ℤ) × List String × List DayResult
  | [] => ([], [], [])
  | date :: rest =>
    let this := runDate env ric offset t0 t1 measure date
    let rec' := runDates env ric offset t0 t1 measure rest
    (this.1 :: rec'.1, this.2.1 ++ rec'.2.1, this.2.2.toList ++ rec'.2.2)

/-- Everything `calculate_measures` produces: the new object state, the
UTC request windows sent to the pricing service (in order), and the
printed messages. -/
structure CallResult where
  state : State
  requests : List (ℤ × ℤ)
  msgs : List String
deriving DecidableEq, Repr

/-- Lines 137–226 of `helper.py`, `Intraday.calculate_measures`. The
`dates` argument is the list after the `isinstance` wrapping of a bare
datetime (a bare datetime therefore arrives as a one-element list).
Validation failure returns before any state is touched or request sent.
Otherwise `_prices` / `_volumes` are reset to `None`, the timezone is
fetched, and on success each date is requested and processed; with at
least one per-day result the two wide tables are concatenated and
stored. -/
def calculate_measures (env : Env) (s : State) (ric : String) (dates : List ℤ)
    (time_range : List TimeOfDay) (measure : Option String) : CallResult :=
  if dates.length < 1 ∨ time_range.length ≠ 2 then
    ⟨s, [], []⟩
  else
    let t0 := time_range.headI
    let t1 := (time_range.drop 1).headI
    let s0 : State := { s with prices := none, volumes := none }
    let tzr := get_timezone env s0 ric
    let s1 := tzr.1
    if tzr.2.1 then
      let offset := env.tzOffset (s1.tz.getD "")
      let run := runDates env ric offset t0 t1 measure dates
      let results := run.2.2
      if results.length > 0 then
        let pf := concatDropna (results.map fun r => (r.dateLabel, r.priceRows))
        let vf := concatDropna (results.map fun r => (r.dateLabel, r.volumeRows))
        ⟨{ s1 with prices := some pf, volumes := some vf },
          run.1, "Processing..." :: (tzr.2.2 ++ run.2.1 ++ ["**Done"])⟩
      else
        ⟨s1, run.1,
          "Processing..." ::
            (tzr.2.2 ++ run.2.1 ++ ["Failed to generate any measures", "**Done"])⟩
    else
      ⟨s1, [],
        "Processing..." :: (tzr.2.2 ++ ["Failed to generate any measures", "**Done"])⟩

/-- The `prices` property (lines 228–233): the stored table, or `None`
when the attribute is absent. -/
def prices (s : State) : Option Frame := s.prices

/-- The `volumes` property (lines 235–240). -/
def volumes (s : State) : Option Frame := s.volumes

/-- The `label` property (lines 242–246). -/
def label (s : State) : Option String := s.label

/-- A Python runtime error surfaced by `plot`. -/
inductive PyExc
  | nameError (missing : String)
deriving DecidableEq, Repr

/-- Lines 248–257 of `helper.py`, `Intraday.plot`. When measures exist
and `title` is `None`, the fallback `title = _label` reads the global
name `_label`, which is defined nowhere in the module, so the branch
raises `NameError` before anything is plotted. Otherwise the two charts
are rendered (modelled as a list of chart actions). -/
def plot (s : State) (title : Option String) : Except PyExc (List String) :=
  match s.prices with
  | some _ =>
    match title with
    | none => .error (.nameError "_label")
    | some t => .ok [s!"iplot prices: {t}", "iplot volumes"]
  | none => .ok ["No measures generated"]

/-! ## Concrete sample data used to instantiate the theorems -/

/-- A concrete time range start (`09:30`). -/
def sampleTime0 : TimeOfDay := ⟨9, 30⟩

/-- A concrete time range end (`16:00`). -/
def sampleTime1 : TimeOfDay := ⟨16, 0⟩

/-- A concrete single-column wide table. -/
def sampleFrame : Frame := ⟨[⟨9, 30⟩], [(738000, [10])]⟩

/-- A concrete well-behaved environment: the instrument trades in a
UTC-5 zone and every request returns two complete minute bars. -/
def sampleEnv : Env where
  masOperatingTZ := fun _ => .ok (some "US/Eastern")
  cfName := fun _ => .ok (some "Acme Corp")
  summaries := fun _ start _ =>
    .ok [⟨start, some 10, some 100⟩, ⟨start + 1, some 12, some 50⟩]
  tzOffset := fun _ => -300

/-- A concrete environment in which requests whose window starts before
minute `0` raise an exception, and all other requests succeed. -/
def sampleFlakyEnv : Env where
  masOperatingTZ := fun _ => .ok (some "US/Eastern")
  cfName := fun _ => .ok (some "Acme Corp")
  summaries := fun _ start _ =>
    if start < 0 then .error "server unavailable"
    else .ok [⟨start, some 10, some 100⟩, ⟨start + 1, some 12, some 50⟩]
  tzOffset := fun _ => -300

/-- A concrete environment in which the timezone lookup always raises. -/
def sampleDownEnv : Env where
  masOperatingTZ := fun _ => .error "service down"
  cfName := fun _ => .error "service down"
  summaries := fun _ _ _ => .error "service down"
  tzOffset := fun _ => 0

/-! ## Supporting lemmas -/

/-- The weekday-skipping loop never moves the offset backwards. -/
lemma skipWeekends_le (t : ℤ) : ∀ f d : ℕ, d ≤ skipWeekends t d f := by
  intro f
  induction f with
  | zero => intro d; simp [skipWeekends]
  | succ f ih =>
    intro d
    simp only [skipWeekends]
    split
    · exact le_rfl
    · exact le_trans (Nat.le_succ d) (ih (d + 1))

/-- Every offset skipped over by the loop falls on a weekend. -/
lemma skipWeekends_min (t : ℤ) :
    ∀ f d k : ℕ, d ≤ k → k < skipWeekends t d f → 5 ≤ weekday (t - k) := by
  intro f
  induction f with
  | zero =>
    intro d k hdk hk
    simp only [skipWeekends] at hk
    omega
  | succ f ih =>
    intro d k hdk hk
    simp only [skipWeekends] at hk
    split at hk
    · omega
    · rcases Nat.eq_or_lt_of_le hdk with h | h
      · subst h; omega
      · exact ih (d + 1) k h hk

/-- If some offset within the fuel budget falls on a weekday, the loop
stops on a weekday. -/
lemma skipWeekends_found (t : ℤ) :
    ∀ f d : ℕ, (∃ k, d ≤ k ∧ k < d + f ∧ weekday (t - k) < 5) →
      weekday (t - skipWeekends t d f) < 5 := by
  intro f
  induction f with
  | zero =>
    intro d h
    obtain ⟨k, h1, h2, _⟩ := h
    omega
  | succ f ih =>
    intro d h
    simp only [skipWeekends]
    split
    · assumption
    · next hc =>
      refine ih (d + 1) ?_
      obtain ⟨k, h1, h2, h3⟩ := h
      refine ⟨k, ?_, by omega, h3⟩
      rcases Nat.eq_or_lt_of_le h1 with h | h
      · subst h; exact absurd h3 hc
      · omega

/-- Any three consecutive day offsets contain a weekday. -/
lemma weekday_within_three (t : ℤ) (d : ℕ) :
    ∃ k, d ≤ k ∧ k < d + 3 ∧ weekday (t - k) < 5 := by
  by_cases h0 : weekday (t - d) < 5
  · exact ⟨d, le_rfl, by omega, h0⟩
  by_cases h1 : weekday (t - (d + 1)) < 5
  · exact ⟨d + 1, by omega, by omega, h1⟩
  refine ⟨d + 2, by omega, by omega, ?_⟩
  simp only [weekday] at h0 h1 ⊢
  push_cast at h0 h1 ⊢
  omega

/-- The loop stops on a weekday (fuel `7` always suffices). -/
lemma skipWeekends_weekday (t : ℤ) (d : ℕ) :
    weekday (t - skipWeekends t d 7) < 5 := by
  refine skipWeekends_found t 7 d ?_
  obtain ⟨k, h1, h2, h3⟩ := weekday_within_three t d
  exact ⟨k, h1, by omega, h3⟩

/-- The date-selection loop yields exactly the requested number of
dates. -/
lemma pickDatesAux_length (t : ℤ) : ∀ n d : ℕ, (pickDatesAux t d n).length = n := by
  intro n
  induction n with
  | zero => intro d; simp [pickDatesAux]
  | succ n ih => intro d; simp [pickDatesAux, ih]

/-- Every selected date is at least `delta` days in the past. -/
lemma pickDatesAux_le (t : ℤ) :
    ∀ n d : ℕ, ∀ x ∈ pickDatesAux t d n, x ≤ t - d := by
  intro n
  induction n with
  | zero => intro d x hx; simp [pickDatesAux] at hx
  | succ n ih =>
    intro d x hx
    simp only [pickDatesAux, List.mem_cons] at hx
    rcases hx with hx | hx
    · subst hx
      have := skipWeekends_le t 7 d
      omega
    · have h1 := ih (skipWeekends t d 7 + 1) x hx
      have h2 := skipWeekends_le t 7 d
      omega

/-- Every selected date falls on a weekday. -/
lemma pickDatesAux_weekday (t : ℤ) :
    ∀ n d : ℕ, ∀ x ∈ pickDatesAux t d n, weekday x < 5 := by
  intro n
  induction n with
  | zero => intro d x hx; simp [pickDatesAux] at hx
  | succ n ih =>
    intro d x hx
    simp only [pickDatesAux, List.mem_cons] at hx
    rcases hx with hx | hx
    · subst hx; exact skipWeekends_weekday t d
    · exact ih (skipWeekends t d 7 + 1) x hx

/-- Between the previous boundary and each selected date every skipped
day is a weekend, and the selected dates decrease: the loop enumerates
the most recent weekdays in order of decreasing recency. -/
lemma pickDatesAux_chain (t : ℤ) :
    ∀ n d : ℕ, List.Chain'
      (fun a b => b < a ∧ ∀ y, b < y → y < a → 5 ≤ weekday y)
      ((t - d + 1) :: pickDatesAux t d n) := by
  intro n
  induction n with
  | zero => intro d; simp [pickDatesAux]
  | succ n ih =>
    intro d
    simp only [pickDatesAux]
    rw [List.chain'_cons]
    constructor
    · constructor
      · have := skipWeekends_le t 7 d
        omega
      · intro y hy1 hy2
        have hk : ∃ k : ℕ, y = t - k ∧ d ≤ k ∧ k < skipWeekends t d 7 := by
          refine ⟨(t - y).toNat, ?_, ?_, ?_⟩ <;> omega
        obtain ⟨k, rfl, h1, h2⟩ := hk
        exact skipWeekends_min t 7 d k h1 h2
    · have h := ih (skipWeekends t d 7 + 1)
      have he : t - (↑(skipWeekends t d 7 + 1) : ℤ) + 1 = t - ↑(skipWeekends t d 7) := by
        push_cast; ring
      rwa [he] at h

/-! ## Claim C6 -/

/-- Claim C6: the count of date selectors is bounded to `[1, 10]`: a
`cnt` below `1` or above `10` is replaced (by `5`), and after
`__post_init__` the number of held date selectors always lies between
`1` and `10`. -/
theorem datePicker_count_spec (today cnt : ℤ) :
    (cnt < 1 ∨ 10 < cnt → clampCnt cnt = 5) ∧
    1 ≤ (datePickerDates today cnt).length ∧
    (datePickerDates today cnt).length ≤ 10 := by
  have hlen : (datePickerDates today cnt).length = (clampCnt cnt).toNat := by
    simp [datePickerDates, pickDatesAux_length]
  have hcl : (cnt < 1 ∨ 10 < cnt → clampCnt cnt = 5) ∧
      1 ≤ clampCnt cnt ∧ clampCnt cnt ≤ 10 := by
    unfold clampCnt
    split
    · exact ⟨fun _ => rfl, by omega, by omega⟩
    · next h => exact ⟨fun hc => absurd hc h, by omega, by omega⟩
  refine ⟨hcl.1, ?_, ?_⟩ <;> rw [hlen] <;> omega

/-- Witness for C6 at a concrete out-of-range count. -/
theorem datePicker_count_spec_witness :
    ((0 : ℤ) < 1 ∨ 10 < (0 : ℤ)) ∧ clampCnt 0 = 5 ∧
      1 ≤ (datePickerDates 738000 0).length ∧
      (datePickerDates 738000 0).length ≤ 10 := by
  refine ⟨Or.inl (by decide), (datePicker_count_spec 738000 0).1 (Or.inl (by decide)),
    (datePicker_count_spec 738000 0).2.1, (datePicker_count_spec 738000 0).2.2⟩

/-! ## Claim C7 -/

/-- Claim C7: every preset date of `DatePicker.__post_init__` is a
business day strictly before today (weekday index below `5`), weekend
days being skipped by the weekday-index check, and the selectors hold
the most recent such weekdays in order of decreasing recency: the list
decreases, and between today and the first pick, and between any two
consecutive picks, every skipped day is a weekend. -/
theorem datePicker_business_days_spec (today cnt : ℤ) :
    (∀ x ∈ datePickerDates today cnt, x < today ∧ weekday x < 5) ∧
    List.Chain' (fun a b => b < a ∧ ∀ y, b < y → y < a → 5 ≤ weekday y)
      (today :: datePickerDates today cnt) := by
  constructor
  · intro x hx
    refine ⟨?_, pickDatesAux_weekday today (clampCnt cnt).toNat 1 x hx⟩
    have := pickDatesAux_le today (clampCnt cnt).toNat 1 x hx
    omega
  · have h := pickDatesAux_chain today (clampCnt cnt).toNat 1
    have he : today - (1 : ℕ) + 1 = today := by push_cast; ring
    rwa [he] at h

/-- Witness for C7: the most recent pick from a concrete Thursday is
the preceding Wednesday, a business day. -/
theorem datePicker_business_days_spec_witness :
    (737999 : ℤ) ∈ datePickerDates 738000 3 ∧
      (737999 : ℤ) < 738000 ∧ weekday 737999 < 5 := by
  refine ⟨by decide, (datePicker_business_days_spec 738000 3).1 737999 (by decide)⟩

/-! ## Loop-level lemmas -/

/-- One request is sent per date, always with the converted window,
whatever the outcome. -/
lemma runDate_request (env : Env) (ric : String) (offset : ℤ) (t0 t1 : TimeOfDay)
    (measure : Option String) (date : ℤ) :
    (runDate env ric offset t0 t1 measure date).1 = requestWindow offset t0 t1 date := by
  unfold runDate
  dsimp only
  cases env.summaries ric (requestWindow offset t0 t1 date).1
      (requestWindow offset t0 t1 date).2 with
  | error e => rfl
  | ok raw =>
    dsimp only
    split <;> rfl

/-- The loop sends exactly the per-date request windows, in date
order. -/
lemma runDates_requests (env : Env) (ric : String) (offset : ℤ) (t0 t1 : TimeOfDay)
    (measure : Option String) : ∀ dates : List ℤ,
    (runDates env ric offset t0 t1 measure dates).1 =
      dates.map (requestWindow offset t0 t1) := by
  intro dates
  induction dates with
  | nil => rfl
  | cons d rest ih =>
    simp only [runDates, List.map_cons]
    rw [ih, runDate_request]

/-- The loop's printed messages are the per-date messages in order. -/
lemma runDates_msgs (env : Env) (ric : String) (offset : ℤ) (t0 t1 : TimeOfDay)
    (measure : Option String) : ∀ dates : List ℤ,
    (runDates env ric offset t0 t1 measure dates).2.1 =
      dates.flatMap fun d => (runDate env ric offset t0 t1 measure d).2.1 := by
  intro dates
  induction dates with
  | nil => rfl
  | cons d rest ih =>
    simp only [runDates, List.flatMap_cons]
    rw [ih]

/-- The per-day tables collected by the loop are exactly the successful
per-date outcomes, in date order. -/
lemma runDates_results (env : Env) (ric : String) (offset : ℤ) (t0 t1 : TimeOfDay)
    (measure : Option String) : ∀ dates : List ℤ,
    (runDates env ric offset t0 t1 measure dates).2.2 =
      dates.filterMap (dayOutcome env ric offset t0 t1 measure) := by
  intro dates
  induction dates with
  | nil => rfl
  | cons d rest ih =>
    simp only [runDates, List.filterMap_cons]
    rw [ih]
    cases h : dayOutcome env ric offset t0 t1 measure d with
    | none =>
      unfold dayOutcome at h
      rw [h]
      rfl
    | some res =>
      unfold dayOutcome at h
      rw [h]
      rfl

/-- On a successful timezone lookup, `__get_timezone` sets `_tz` and
`_label` and reports success without printing. -/
lemma get_timezone_ok (env : Env) (s : State) (ric tzName nm : String)
    (htz : env.masOperatingTZ ric = Except.ok (some tzName))
    (hnm : env.cfName ric = Except.ok (some nm)) :
    get_timezone env s ric =
      ({ s with tz := some tzName, label := some s!"{nm} (Timezone: {tzName})" },
        true, []) := by
  unfold get_timezone
  rw [htz, hnm]

/-- `__get_timezone` never touches the stored tables. -/
lemma get_timezone_frames (env : Env) (s : State) (ric : String) :
    (get_timezone env s ric).1.prices = s.prices ∧
    (get_timezone env s ric).1.volumes = s.volumes := by
  unfold get_timezone
  cases env.masOperatingTZ ric with
  | error e => exact ⟨rfl, rfl⟩
  | ok tzDf =>
    cases env.cfName ric with
    | error e => exact ⟨rfl, rfl⟩
    | ok nmDf => cases tzDf <;> cases nmDf <;> exact ⟨rfl, rfl⟩

/-! ## Claim C1 -/

/-- The measure switch preserves the length of the price column. -/
lemma applyMeasure_length (m : Option String) (ps : List ℚ) :
    (applyMeasure m ps).length = ps.length := by
  unfold applyMeasure
  split_ifs <;> simp

/-- The price column of a processed day is exactly the measure switch
applied to the raw price column. -/
lemma processDay_price_column (offset : ℤ) (m : Option String) (bars : List Bar) :
    (processDay offset m bars).priceRows.map Prod.snd =
      applyMeasure m (bars.map Bar.price) := by
  unfold processDay
  dsimp only
  have hpr : (bars.map fun b => { b with ts := b.ts + offset }).map Bar.price =
      bars.map Bar.price := by
    rw [List.map_map]
    rfl
  rw [hpr]
  refine List.map_snd_zip _ _ ?_
  rw [applyMeasure_length]
  simp

/-- Claim C1: in `calculate_measures`, the measure `'net'` transforms
each day's price series to the raw price minus the first observed price
of the day, `'pct'` transforms it to (raw minus first) divided by first,
and any other `measure` value leaves the raw prices untransformed. -/
theorem measure_transform_spec (offset : ℤ) (measure : Option String) (bars : List Bar) :
    ((processDay offset (some "net") bars).priceRows.map Prod.snd =
        bars.map fun b => b.price - (bars.map Bar.price).headI) ∧
    ((processDay offset (some "pct") bars).priceRows.map Prod.snd =
        bars.map fun b =>
          (b.price - (bars.map Bar.price).headI) / (bars.map Bar.price).headI) ∧
    (measure ≠ some "net" → measure ≠ some "pct" →
      (processDay offset measure bars).priceRows.map Prod.snd = bars.map Bar.price) := by
  refine ⟨?_, ?_, ?_⟩
  · rw [processDay_price_column]
    unfold applyMeasure
    rw [if_pos rfl, List.map_map]
    rfl
  · rw [processDay_price_column]
    unfold applyMeasure
    rw [if_neg (by decide), if_pos rfl, List.map_map]
    rfl
  · intro h1 h2
    rw [processDay_price_column]
    unfold applyMeasure
    rw [if_neg h1, if_neg h2]

/-- Witness for C1 at a concrete bar list and default `measure=None`. -/
theorem measure_transform_spec_witness :
    ((none : Option String) ≠ some "net") ∧ ((none : Option String) ≠ some "pct") ∧
      (processDay 0 none [⟨0, 10, 100⟩]).priceRows.map Prod.snd =
        [Bar.mk 0 10 100].map Bar.price := by
  exact ⟨by decide, by decide,
    (measure_transform_spec 0 none [⟨0, 10, 100⟩]).2.2 (by decide) (by decide)⟩

/-- A nonempty dates list and a two-element time range pass the input
validation of `calculate_measures`. -/
lemma validation_cond (dates : List ℤ) (t0 t1 : TimeOfDay) (hd : dates ≠ []) :
    ¬(dates.length < 1 ∨ ([t0, t1] : List TimeOfDay).length ≠ 2) := by
  push_neg
  refine ⟨?_, rfl⟩
  cases dates with
  | nil => exact absurd rfl hd
  | cons a l => simp

/-- Unfolding of `calculate_measures` along the validated,
timezone-successful path. -/
lemma calculate_measures_ok_eq (env : Env) (s : State) (ric : String) (dates : List ℤ)
    (measure : Option String) (t0 t1 : TimeOfDay) (tzName nm : String)
    (htz : env.masOperatingTZ ric = Except.ok (some tzName))
    (hnm : env.cfName ric = Except.ok (some nm))
    (hd : dates ≠ []) :
    calculate_measures env s ric dates [t0, t1] measure =
      (let offset := env.tzOffset tzName
       let s1 : State :=
         { s with
             tz := some tzName
             label := some s!"{nm} (Timezone: {tzName})"
             prices := none
             volumes := none }
       let run := runDates env ric offset t0 t1 measure dates
       if run.2.2.length > 0 then
         ⟨{ s1 with
             prices := some (concatDropna (run.2.2.map fun r => (r.dateLabel, r.priceRows)))
             volumes := some (concatDropna (run.2.2.map fun r => (r.dateLabel, r.volumeRows))) },
           run.1, "Processing..." :: (run.2.1 ++ ["**Done"])⟩
       else
         ⟨s1, run.1,
           "Processing..." :: (run.2.1 ++ ["Failed to generate any measures", "**Done"])⟩) := by
  unfold calculate_measures
  rw [if_neg (validation_cond dates t0 t1 hd)]
  dsimp only
  rw [get_timezone_ok env _ ric tzName nm htz hnm]
  rw [if_pos rfl]
  rfl

/-- Along the successful path the requests sent are the converted
per-date windows. -/
lemma calculate_measures_requests (env : Env) (s : State) (ric : String) (dates : List ℤ)
    (measure : Option String) (t0 t1 : TimeOfDay) (tzName nm : String)
    (htz : env.masOperatingTZ ric = Except.ok (some tzName))
    (hnm : env.cfName ric = Except.ok (some nm))
    (hd : dates ≠ []) :
    (calculate_measures env s ric dates [t0, t1] measure).requests =
      dates.map (requestWindow (env.tzOffset tzName) t0 t1) := by
  rw [calculate_measures_ok_eq env s ric dates measure t0 t1 tzName nm htz hnm hd]
  dsimp only
  split
  · dsimp only
    rw [runDates_requests]
  · dsimp only
    rw [runDates_requests]

/-- Every message printed inside the date loop is among the printed
messages of the whole call. -/
lemma calculate_measures_msgs_mem (env : Env) (s : State) (ric : String) (dates : List ℤ)
    (measure : Option String) (t0 t1 : TimeOfDay) (tzName nm : String)
    (htz : env.masOperatingTZ ric = Except.ok (some tzName))
    (hnm : env.cfName ric = Except.ok (some nm))
    (hd : dates ≠ []) (m : String)
    (hm : m ∈ (runDates env ric (env.tzOffset tzName) t0 t1 measure dates).2.1) :
    m ∈ (calculate_measures env s ric dates [t0, t1] measure).msgs := by
  rw [calculate_measures_ok_eq env s ric dates measure t0 t1 tzName nm htz hnm hd]
  dsimp only
  split
  · exact List.mem_cons_of_mem _ (List.mem_append_left _ hm)
  · exact List.mem_cons_of_mem _ (List.mem_append_left _ hm)

/-- The column labels of a concatenated table are the labels of the
concatenated columns. -/
lemma concatDropna_labels (cols : List (ℤ × List (TimeOfDay × ℚ))) :
    (concatDropna cols).cols.map Prod.fst = cols.map Prod.fst := by
  unfold concatDropna
  dsimp only
  rw [List.map_map]
  rfl

/-- Every row label of a concatenated table occurs in some concatenated
column. -/
lemma concatDropna_index_mem (cols : List (ℤ × List (TimeOfDay × ℚ))) (t : TimeOfDay)
    (h : t ∈ (concatDropna cols).index) :
    ∃ c ∈ cols, t ∈ c.snd.map Prod.fst := by
  unfold concatDropna at h
  dsimp only at h
  have h1 := List.mem_of_mem_filter h
  rw [List.mem_dedup, List.mem_flatMap] at h1
  exact h1

/-- With at least one successful date, the call stores the two
concatenated tables built from the per-date outcomes. -/
lemma calculate_measures_tables (env : Env) (s : State) (ric : String) (dates : List ℤ)
    (measure : Option String) (t0 t1 : TimeOfDay) (tzName nm : String)
    (htz : env.masOperatingTZ ric = Except.ok (some tzName))
    (hnm : env.cfName ric = Except.ok (some nm))
    (hd : dates ≠ [])
    (hres : dates.filterMap (dayOutcome env ric (env.tzOffset tzName) t0 t1 measure) ≠ []) :
    (calculate_measures env s ric dates [t0, t1] measure).state.prices =
      some (concatDropna
        ((dates.filterMap (dayOutcome env ric (env.tzOffset tzName) t0 t1 measure)).map
          fun r => (r.dateLabel, r.priceRows))) ∧
    (calculate_measures env s ric dates [t0, t1] measure).state.volumes =
      some (concatDropna
        ((dates.filterMap (dayOutcome env ric (env.tzOffset tzName) t0 t1 measure)).map
          fun r => (r.dateLabel, r.volumeRows))) := by
  rw [calculate_measures_ok_eq env s ric dates measure t0 t1 tzName nm htz hnm hd]
  dsimp only
  rw [runDates_results]
  rw [if_pos (List.length_pos.mpr hres)]
  exact ⟨rfl, rfl⟩

/-- Without any successful date on the validated timezone-successful
path, the stored tables are `None`. -/
lemma calculate_measures_no_tables (env : Env) (s : State) (ric : String) (dates : List ℤ)
    (measure : Option String) (t0 t1 : TimeOfDay) (tzName nm : String)
    (htz : env.masOperatingTZ ric = Except.ok (some tzName))
    (hnm : env.cfName ric = Except.ok (some nm))
    (hd : dates ≠ [])
    (hres : dates.filterMap (dayOutcome env ric (env.tzOffset tzName) t0 t1 measure) = []) :
    (calculate_measures env s ric dates [t0, t1] measure).state.prices = none ∧
    (calculate_measures env s ric dates [t0, t1] measure).state.volumes = none := by
  rw [calculate_measures_ok_eq env s ric dates measure t0 t1 tzName nm htz hnm hd]
  dsimp only
  rw [runDates_results, hres]
  rw [if_neg (by simp)]
  exact ⟨rfl, rfl⟩

/-! ## Claim C2 -/

/-- Both row indices of a processed day are the returned UTC timestamps
shifted into the trading timezone and rendered as time-of-day. -/
lemma processDay_row_times (offset : ℤ) (m : Option String) (bars : List Bar) :
    (processDay offset m bars).priceRows.map Prod.fst =
      bars.map (fun b => minutesToTime (b.ts + offset)) ∧
    (processDay offset m bars).volumeRows.map Prod.fst =
      bars.map (fun b => minutesToTime (b.ts + offset)) := by
  unfold processDay
  dsimp only
  constructor
  · rw [List.map_fst_zip]
    · rw [List.map_map]
      rfl
    · rw [applyMeasure_length]
      simp
  · rw [List.map_map, List.map_map]
    rfl

/-- Claim C2: for every date processed by `calculate_measures`, the
request window sent to the pricing service is the selected local
start/end times interpreted in the instrument's trading timezone and
converted to UTC (wall minutes minus the zone offset), and the returned
minute-bar timestamps are localized as UTC and converted back to that
timezone (plus the offset) to index the stored per-day tables. -/
theorem timezone_window_spec (env : Env) (s : State) (ric : String) (dates : List ℤ)
    (measure : Option String) (t0 t1 : TimeOfDay) (tzName nm : String)
    (htz : env.masOperatingTZ ric = Except.ok (some tzName))
    (hnm : env.cfName ric = Except.ok (some nm))
    (hd : dates ≠ []) :
    (calculate_measures env s ric dates [t0, t1] measure).requests =
      dates.map (requestWindow (env.tzOffset tzName) t0 t1) ∧
    ∀ date raw,
      env.summaries ric (requestWindow (env.tzOffset tzName) t0 t1 date).1
        (requestWindow (env.tzOffset tzName) t0 t1 date).2 = Except.ok raw →
      dropna raw ≠ [] →
      dayOutcome env ric (env.tzOffset tzName) t0 t1 measure date =
        some (processDay (env.tzOffset tzName) measure (dropna raw)) ∧
      (processDay (env.tzOffset tzName) measure (dropna raw)).priceRows.map Prod.fst =
        (dropna raw).map (fun b => minutesToTime (b.ts + env.tzOffset tzName)) ∧
      (processDay (env.tzOffset tzName) measure (dropna raw)).volumeRows.map Prod.fst =
        (dropna raw).map (fun b => minutesToTime (b.ts + env.tzOffset tzName)) := by
  constructor
  · exact calculate_measures_requests env s ric dates measure t0 t1 tzName nm htz hnm hd
  · intro date raw hsum hne
    have hbars : (dropna raw).isEmpty = false := by
      cases h : dropna raw with
      | nil => exact absurd h hne
      | cons a l => rfl
    refine ⟨?_, (processDay_row_times _ _ _).1, (processDay_row_times _ _ _).2⟩
    unfold dayOutcome runDate
    dsimp only
    rw [hsum]
    dsimp only
    rw [if_neg (by rw [hbars]; exact Bool.false_ne_true)]

/-- Witness for C2 at a concrete environment and date. -/
theorem timezone_window_spec_witness :
    sampleEnv.masOperatingTZ "VOD.L" = Except.ok (some "US/Eastern") ∧
    sampleEnv.cfName "VOD.L" = Except.ok (some "Acme Corp") ∧
    ([(738000 : ℤ)] ≠ []) ∧
    (calculate_measures sampleEnv initState "VOD.L" [738000]
        [sampleTime0, sampleTime1] none).requests =
      [(738000 : ℤ)].map (requestWindow (sampleEnv.tzOffset "US/Eastern")
        sampleTime0 sampleTime1) := by
  refine ⟨rfl, rfl, by decide, ?_⟩
  exact (timezone_window_spec sampleEnv initState "VOD.L" [738000] none
    sampleTime0 sampleTime1 "US/Eastern" "Acme Corp" rfl rfl (by decide)).1

/-! ## Claim C3 -/

/-- A raised request for a date produces no outcome and exactly the
one printed issue message. -/
lemma runDate_error (env : Env) (ric : String) (offset : ℤ) (t0 t1 : TimeOfDay)
    (measure : Option String) (date : ℤ) (e : String)
    (hsum : env.summaries ric (requestWindow offset t0 t1 date).1
      (requestWindow offset t0 t1 date).2 = Except.error e) :
    runDate env ric offset t0 t1 measure date =
      (requestWindow offset t0 t1 date,
        [issueMsg ric (requestWindow offset t0 t1 date).1
          (requestWindow offset t0 t1 date).2 e], none) := by
  unfold runDate
  dsimp only
  rw [hsum]

/-- Claim C3: a failure (exception or empty response) while retrieving
one date is handled per date: every date gives rise to exactly one
request (no retry), an exception for a date prints the issue message and
the loop continues, and the failed date contributes no column — the
final column labels are exactly the labels of the successful dates. -/
theorem per_date_failure_spec (env : Env) (s : State) (ric : String) (dates : List ℤ)
    (measure : Option String) (t0 t1 : TimeOfDay) (tzName nm : String)
    (htz : env.masOperatingTZ ric = Except.ok (some tzName))
    (hnm : env.cfName ric = Except.ok (some nm))
    (hd : dates ≠ []) :
    (calculate_measures env s ric dates [t0, t1] measure).requests.length =
      dates.length ∧
    (∀ date ∈ dates, ∀ e : String,
      env.summaries ric (requestWindow (env.tzOffset tzName) t0 t1 date).1
          (requestWindow (env.tzOffset tzName) t0 t1 date).2 = Except.error e →
      dayOutcome env ric (env.tzOffset tzName) t0 t1 measure date = none ∧
      issueMsg ric (requestWindow (env.tzOffset tzName) t0 t1 date).1
          (requestWindow (env.tzOffset tzName) t0 t1 date).2 e ∈
        (calculate_measures env s ric dates [t0, t1] measure).msgs) ∧
    (∀ pf : Frame,
      (calculate_measures env s ric dates [t0, t1] measure).state.prices = some pf →
      pf.cols.map Prod.fst =
        (dates.filterMap (dayOutcome env ric (env.tzOffset tzName) t0 t1 measure)).map
          DayResult.dateLabel) := by
  refine ⟨?_, ?_, ?_⟩
  · rw [calculate_measures_requests env s ric dates measure t0 t1 tzName nm htz hnm hd]
    rw [List.length_map]
  · intro date hdate e hsum
    constructor
    · unfold dayOutcome
      rw [runDate_error env ric (env.tzOffset tzName) t0 t1 measure date e hsum]
    · refine calculate_measures_msgs_mem env s ric dates measure t0 t1 tzName nm
        htz hnm hd _ ?_
      rw [runDates_msgs]
      rw [List.mem_flatMap]
      refine ⟨date, hdate, ?_⟩
      rw [runDate_error env ric (env.tzOffset tzName) t0 t1 measure date e hsum]
      exact List.mem_singleton.mpr rfl
  · intro pf hpf
    rcases Decidable.em
        (dates.filterMap (dayOutcome env ric (env.tzOffset tzName) t0 t1 measure) = [])
      with hres | hres
    · have := (calculate_measures_no_tables env s ric dates measure t0 t1 tzName nm
        htz hnm hd hres).1
      rw [this] at hpf
      exact absurd hpf (by simp)
    · have := (calculate_measures_tables env s ric dates measure t0 t1 tzName nm
        htz hnm hd hres).1
      rw [this] at hpf
      have hpf' := Option.some_injective _ hpf
      rw [← hpf', concatDropna_labels, List.map_map]
      rfl

/-- Witness for C3: one concrete date whose request raises is skipped
with a printed message, and exactly one request is sent. -/
theorem per_date_failure_spec_witness :
    ([(-1 : ℤ)] ≠ []) ∧
    sampleFlakyEnv.summaries "VOD.L"
        (requestWindow (sampleFlakyEnv.tzOffset "US/Eastern") sampleTime0 sampleTime1 (-1)).1
        (requestWindow (sampleFlakyEnv.tzOffset "US/Eastern") sampleTime0 sampleTime1 (-1)).2 =
      Except.error "server unavailable" ∧
    (calculate_measures sampleFlakyEnv initState "VOD.L" [-1]
        [sampleTime0, sampleTime1] none).requests.length = [(-1 : ℤ)].length ∧
    dayOutcome sampleFlakyEnv "VOD.L" (sampleFlakyEnv.tzOffset "US/Eastern")
      sampleTime0 sampleTime1 none (-1) = none ∧
    issueMsg "VOD.L"
        (requestWindow (sampleFlakyEnv.tzOffset "US/Eastern") sampleTime0 sampleTime1 (-1)).1
        (requestWindow (sampleFlakyEnv.tzOffset "US/Eastern") sampleTime0 sampleTime1 (-1)).2
        "server unavailable" ∈
      (calculate_measures sampleFlakyEnv initState "VOD.L" [-1]
        [sampleTime0, sampleTime1] none).msgs := by
  have h := per_date_failure_spec sampleFlakyEnv initState "VOD.L" [-1] none
    sampleTime0 sampleTime1 "US/Eastern" "Acme Corp" rfl rfl (by decide)
  have h2 := h.2.1 (-1) (by decide) "server unavailable" (by rfl)
  exact ⟨by decide, by rfl, h.1, h2.1, h2.2⟩

/-! ## Claim C5 -/

/-- Claim C5: after a successful `calculate_measures` call the object
holds two wide-format tables, one for the price measure and one for the
volume measure; each column is labelled by a trading date obtained from
the data a date returned (the columns are exactly the successful dates'
labels, shared by the two tables), and each row label is an intraday
time-of-day stamp coming from a returned bar. -/
theorem wide_tables_spec (env : Env) (s : State) (ric : String) (dates : List ℤ)
    (measure : Option String) (t0 t1 : TimeOfDay) (tzName nm : String)
    (htz : env.masOperatingTZ ric = Except.ok (some tzName))
    (hnm : env.cfName ric = Except.ok (some nm))
    (hd : dates ≠ [])
    (hres : dates.filterMap (dayOutcome env ric (env.tzOffset tzName) t0 t1 measure) ≠ []) :
    ∃ pf vf : Frame,
      (calculate_measures env s ric dates [t0, t1] measure).state.prices = some pf ∧
      (calculate_measures env s ric dates [t0, t1] measure).state.volumes = some vf ∧
      pf.cols.map Prod.fst =
        (dates.filterMap (dayOutcome env ric (env.tzOffset tzName) t0 t1 measure)).map
          DayResult.dateLabel ∧
      vf.cols.map Prod.fst =
        (dates.filterMap (dayOutcome env ric (env.tzOffset tzName) t0 t1 measure)).map
          DayResult.dateLabel ∧
      (∀ l ∈ pf.cols.map Prod.fst, ∃ date ∈ dates, ∃ res : DayResult,
        dayOutcome env ric (env.tzOffset tzName) t0 t1 measure date = some res ∧
          l = res.dateLabel) ∧
      (∀ tm ∈ pf.index, ∃ date ∈ dates, ∃ res : DayResult,
        dayOutcome env ric (env.tzOffset tzName) t0 t1 measure date = some res ∧
          tm ∈ res.priceRows.map Prod.fst) := by
  obtain ⟨hp, hv⟩ := calculate_measures_tables env s ric dates measure t0 t1 tzName nm
    htz hnm hd hres
  refine ⟨_, _, hp, hv, ?_, ?_, ?_, ?_⟩
  · rw [concatDropna_labels, List.map_map]
    rfl
  · rw [concatDropna_labels, List.map_map]
    rfl
  · intro l hl
    rw [concatDropna_labels, List.map_map] at hl
    obtain ⟨res, hres1, hres2⟩ := List.mem_map.mp hl
    obtain ⟨date, hdate, hout⟩ := List.mem_filterMap.mp hres1
    exact ⟨date, hdate, res, hout, hres2.symm⟩
  · intro tm htm
    obtain ⟨c, hc, htc⟩ := concatDropna_index_mem _ tm htm
    obtain ⟨res, hres1, hres2⟩ := List.mem_map.mp hc
    obtain ⟨date, hdate, hout⟩ := List.mem_filterMap.mp hres1
    refine ⟨date, hdate, res, hout, ?_⟩
    rw [← hres2] at htc
    exact htc

/-- Witness for C5 at a concrete single successful date. -/
theorem wide_tables_spec_witness :
    ([(738000 : ℤ)] ≠ []) ∧
    ([(738000 : ℤ)].filterMap (dayOutcome sampleEnv "VOD.L"
        (sampleEnv.tzOffset "US/Eastern") sampleTime0 sampleTime1 none) ≠ []) ∧
    ∃ pf vf : Frame,
      (calculate_measures sampleEnv initState "VOD.L" [738000]
        [sampleTime0, sampleTime1] none).state.prices = some pf ∧
      (calculate_measures sampleEnv initState "VOD.L" [738000]
        [sampleTime0, sampleTime1] none).state.volumes = some vf ∧
      pf.cols.map Prod.fst =
        ([(738000 : ℤ)].filterMap (dayOutcome sampleEnv "VOD.L"
          (sampleEnv.tzOffset "US/Eastern") sampleTime0 sampleTime1 none)).map
            DayResult.dateLabel ∧
      vf.cols.map Prod.fst =
        ([(738000 : ℤ)].filterMap (dayOutcome sampleEnv "VOD.L"
          (sampleEnv.tzOffset "US/Eastern") sampleTime0 sampleTime1 none)).map
            DayResult.dateLabel ∧
      (∀ l ∈ pf.cols.map Prod.fst, ∃ date ∈ ([(738000 : ℤ)]), ∃ res : DayResult,
        dayOutcome sampleEnv "VOD.L" (sampleEnv.tzOffset "US/Eastern")
          sampleTime0 sampleTime1 none date = some res ∧ l = res.dateLabel) ∧
      (∀ tm ∈ pf.index, ∃ date ∈ ([(738000 : ℤ)]), ∃ res : DayResult,
        dayOutcome sampleEnv "VOD.L" (sampleEnv.tzOffset "US/Eastern")
          sampleTime0 sampleTime1 none date = some res ∧
          tm ∈ res.priceRows.map Prod.fst) := by
  refine ⟨by decide, by decide, ?_⟩
  exact wide_tables_spec sampleEnv initState "VOD.L" [738000] none
    sampleTime0 sampleTime1 "US/Eastern" "Acme Corp" rfl rfl (by decide) (by decide)

/-! ## Claim C4 -/

/-- Claim C4, amended: for every call that passes input validation, the
`_prices` and `_volumes` fields after the call depend only on that
call's inputs and the service responses, never on values left by an
earlier call — two calls with the same inputs from different prior
states store the same tables. -/
theorem tables_overwritten_spec (env : Env) (ric : String) (dates : List ℤ)
    (time_range : List TimeOfDay) (measure : Option String)
    (hd : dates ≠ []) (ht : time_range.length = 2) (s1 s2 : State) :
    (calculate_measures env s1 ric dates time_range measure).state.prices =
      (calculate_measures env s2 ric dates time_range measure).state.prices ∧
    (calculate_measures env s1 ric dates time_range measure).state.volumes =
      (calculate_measures env s2 ric dates time_range measure).state.volumes := by
  have hcond : ¬(dates.length < 1 ∨ time_range.length ≠ 2) := by
    push_neg
    refine ⟨?_, ht⟩
    cases dates with
    | nil => exact absurd rfl hd
    | cons a l => simp
  unfold calculate_measures
  simp only [if_neg hcond]
  unfold get_timezone
  cases env.masOperatingTZ ric with
  | error e => exact ⟨rfl, rfl⟩
  | ok tzDf =>
    cases env.cfName ric with
    | error e => exact ⟨rfl, rfl⟩
    | ok nmDf =>
      cases tzDf with
      | none => exact ⟨rfl, rfl⟩
      | some tzv =>
        cases nmDf with
        | none => exact ⟨rfl, rfl⟩
        | some nmv =>
          dsimp only
          split
          · exact ⟨rfl, rfl⟩
          · exact ⟨rfl, rfl⟩

/-- Witness for C4 (amended) at concrete distinct prior states. -/
theorem tables_overwritten_spec_witness :
    ([(738000 : ℤ)] ≠ []) ∧ ([sampleTime0, sampleTime1].length = 2) ∧
    (calculate_measures sampleEnv { initState with prices := some sampleFrame } "VOD.L"
        [738000] [sampleTime0, sampleTime1] none).state.prices =
      (calculate_measures sampleEnv initState "VOD.L"
        [738000] [sampleTime0, sampleTime1] none).state.prices ∧
    (calculate_measures sampleEnv { initState with prices := some sampleFrame } "VOD.L"
        [738000] [sampleTime0, sampleTime1] none).state.volumes =
      (calculate_measures sampleEnv initState "VOD.L"
        [738000] [sampleTime0, sampleTime1] none).state.volumes := by
  have h := tables_overwritten_spec sampleEnv "VOD.L" [738000]
    [sampleTime0, sampleTime1] none (by decide) rfl
    { initState with prices := some sampleFrame } initState
  exact ⟨by decide, rfl, h.1, h.2⟩

/-- Counterexample to C4 as stated: a call rejected by input validation
(empty dates list) leaves the table stored by an earlier successful call
in place, so after this call the `_prices` field does depend on values
left by the earlier call. -/
theorem tables_overwritten_cex :
    (calculate_measures sampleEnv
        (calculate_measures sampleEnv initState "VOD.L" [738000]
          [sampleTime0, sampleTime1] none).state
        "VOD.L" [] [sampleTime0, sampleTime1] none).state.prices ≠
      (calculate_measures sampleEnv initState "VOD.L" []
        [sampleTime0, sampleTime1] none).state.prices := by
  decide

/-! ## Claim C9 -/

/-- Claim C9, amended: the `prices` and `volumes` properties return
`None` whenever no measures have been generated — before any
`calculate_measures` call, and after any call passing input validation
in which no date yielded data (including when timezone retrieval for the
RIC fails). -/
theorem props_none_spec (env : Env) (s : State) (ric : String) (dates : List ℤ)
    (t0 t1 : TimeOfDay) (measure : Option String)
    (hd : dates ≠ [])
    (h : (get_timezone env { s with prices := none, volumes := none } ric).2.1 = false ∨
      ∀ date ∈ dates, dayOutcome env ric
        (env.tzOffset
          ((get_timezone env { s with prices := none, volumes := none } ric).1.tz.getD ""))
        t0 t1 measure date = none) :
    prices initState = none ∧ volumes initState = none ∧
    prices (calculate_measures env s ric dates [t0, t1] measure).state = none ∧
    volumes (calculate_measures env s ric dates [t0, t1] measure).state = none := by
  refine ⟨rfl, rfl, ?_⟩
  unfold prices volumes calculate_measures
  rw [if_neg (validation_cond dates t0 t1 hd)]
  dsimp only [List.headI, List.drop]
  cases htzb : (get_timezone env { s with prices := none, volumes := none } ric).2.1 with
  | false =>
    rw [if_neg (by simp)]
    have hf := get_timezone_frames env { s with prices := none, volumes := none } ric
    exact ⟨hf.1, hf.2⟩
  | true =>
    rcases h with h | h
    · rw [htzb] at h
      exact absurd h (by simp)
    · rw [if_pos rfl]
      rw [runDates_results]
      rw [List.filterMap_eq_nil_iff.mpr h]
      rw [if_neg (by simp)]
      have hf := get_timezone_frames env { s with prices := none, volumes := none } ric
      exact ⟨hf.1, hf.2⟩

/-- Witness for C9 (amended): failing timezone retrieval leaves both
properties `None`. -/
theorem props_none_spec_witness :
    ([(738000 : ℤ)] ≠ []) ∧
    (get_timezone sampleDownEnv
        { initState with prices := none, volumes := none } "VOD.L").2.1 = false ∧
    prices (calculate_measures sampleDownEnv initState "VOD.L" [738000]
      [sampleTime0, sampleTime1] none).state = none ∧
    volumes (calculate_measures sampleDownEnv initState "VOD.L" [738000]
      [sampleTime0, sampleTime1] none).state = none := by
  have h := props_none_spec sampleDownEnv initState "VOD.L" [738000]
    sampleTime0 sampleTime1 none (by decide) (Or.inl (by rfl))
  exact ⟨by decide, by rfl, h.2.2.1, h.2.2.2⟩

/-- Counterexample to C9 as stated: a call with an empty dates list is
vacuously a call in which no date yielded data, yet after it the
`prices` property still returns the table left earlier rather than
`None`. -/
theorem props_none_cex :
    prices (calculate_measures sampleEnv { initState with prices := some sampleFrame }
        "VOD.L" [] [sampleTime0, sampleTime1] none).state = some sampleFrame := by
  rfl

/-! ## Claim C8 -/

/-- Claim C8: a call with an empty (post-wrapping) dates list or a time
range whose length is not `2` returns immediately: no request is made,
nothing is printed, and the whole state — in particular `_prices` and
`_volumes` — is left exactly as it was. -/
theorem early_return_spec (env : Env) (s : State) (ric : String) (dates : List ℤ)
    (time_range : List TimeOfDay) (measure : Option String)
    (h : dates = [] ∨ time_range.length ≠ 2) :
    calculate_measures env s ric dates time_range measure = ⟨s, [], []⟩ := by
  have hcond : dates.length < 1 ∨ time_range.length ≠ 2 := by
    rcases h with h | h
    · left; subst h; simp
    · right; exact h
  unfold calculate_measures
  rw [if_pos hcond]

/-- Witness for C8: an empty dates list leaves a previously filled
state untouched. -/
theorem early_return_spec_witness :
    (([] : List ℤ) = [] ∨ ([sampleTime0, sampleTime1].length ≠ 2)) ∧
      calculate_measures sampleEnv { initState with prices := some sampleFrame }
        "VOD.L" [] [sampleTime0, sampleTime1] none =
        ⟨{ initState with prices := some sampleFrame }, [], []⟩ := by
  exact ⟨Or.inl rfl,
    early_return_spec sampleEnv { initState with prices := some sampleFrame }
      "VOD.L" [] [sampleTime0, sampleTime1] none (Or.inl rfl)⟩

/-! ## Claim C10 -/

/-- Claim C10: once measures exist, calling `plot` with `title = None`
raises: the fallback assignment reads the undefined global name
`_label`, so the branch errors out before plotting anything. -/
theorem plot_none_title_spec (s : State) (f : Frame) (h : s.prices = some f) :
    plot s none = .error (.nameError "_label") := by
  unfold plot
  rw [h]

/-- Witness for C10 at a concrete filled state. -/
theorem plot_none_title_spec_witness :
    ({ initState with prices := some sampleFrame } : State).prices = some sampleFrame ∧
      plot { initState with prices := some sampleFrame } none =
        .error (.nameError "_label") := by
  exact ⟨rfl, plot_none_title_spec _ sampleFrame rfl⟩

end IntradayAnalysis
